import Mathlib

/-!
Shallow embedding of `src/main.py` (Instagram Media Uploader to Cloudinary relay).

The module embeds, faithfully to the Python source:
  * Python/JSON values as `JValue` (dicts as association lists, first key wins,
    matching Python dict lookup on unique keys);
  * Python truthiness (`JValue.truthy`), `dict.get` (`JValue.getField`),
    `x or y` on optional values (`pyOr`, `pyOrStr`), and `str()` / f-string
    rendering of values (`pyStr`, with `pyRepr` for nested elements);
  * the module-level Cloudinary credential loading with its `or "default"`
    fallbacks (`CLOUDINARY_CLOUD_NAME`, `CLOUDINARY_API_KEY`,
    `CLOUDINARY_API_SECRET`, `cloudinaryConfigured`);
  * the pure URL extraction `_extract_media_urls_from_yabes_response`;
  * the endpoint `process_instagram_and_upload_to_cloudinary`, with the
    stage-1 network boundary (the `requests.get` / `raise_for_status` /
    `.json()` block) reified as a `FetchOutcome` argument and the Cloudinary
    uploader reified as a `String → UploadResult` oracle, since both are
    external services.  An `HTTPException` raised by the handler becomes
    `HandleResult.httpException status detail`; a returned JSON body becomes
    `HandleResult.ok`.
-/

/-- A Python/JSON value as produced by `response.json()`. Objects are
association lists with the first binding of a key authoritative (Python dicts
have unique keys). -/
inductive JValue : Type where
  | null : JValue
  | bool : Bool → JValue
  | num : Int → JValue
  | str : String → JValue
  | arr : List JValue → JValue
  | obj : List (String × JValue) → JValue

/-- First binding of a key in an association list (Python dict lookup). -/
def lookupField : List (String × JValue) → String → Option JValue
  | [], _ => none
  | (k, v) :: rest, key => if k = key then some v else lookupField rest key

/-- Python `d.get(key)` on a dict: `none` models Python `None` for a missing
key; on a non-dict value there is no `.get`, modelled as `none`. -/
def JValue.getField : JValue → String → Option JValue
  | .obj fs, key => lookupField fs key
  | _, _ => none

/-- Python truthiness of a JSON value: `None`, `False`, `0`, `""`, `[]` and
`{}` (rendered `\x7b\x7d`) are falsy, everything else truthy. -/
def JValue.truthy : JValue → Bool
  | .null => false
  | .bool b => b
  | .num n => !(n == 0)
  | .str s => !(s == "")
  | .arr xs => !xs.isEmpty
  | .obj fs => !fs.isEmpty

/-- Python `s.startswith(p)`: prefix test on the character sequence. -/
def pyStartsWith (s p : String) : Bool :=
  p.toList.isPrefixOf s.toList

/-- Python `isinstance(v, dict)`. -/
def JValue.isDict : JValue → Bool
  | .obj _ => true
  | _ => false

mutual
/-- Python `repr()` of a JSON-shaped value, used by `str()` for elements nested
inside lists/dicts (strings gain single quotes). -/
def pyRepr : JValue → String
  | .null => "None"
  | .bool true => "True"
  | .bool false => "False"
  | .num n => toString n
  | .str s => "\x27" ++ s ++ "\x27"
  | .arr xs => "[" ++ pyReprItems xs ++ "]"
  | .obj fs => "\x7b" ++ pyReprFields fs ++ "\x7d"

/-- Comma-joined `repr`s of list items. -/
def pyReprItems : List JValue → String
  | [] => ""
  | [x] => pyRepr x
  | x :: y :: rest => pyRepr x ++ ", " ++ pyReprItems (y :: rest)

/-- Comma-joined `repr`s of dict entries. -/
def pyReprFields : List (String × JValue) → String
  | [] => ""
  | [(k, v)] => "\x27" ++ k ++ "\x27: " ++ pyRepr v
  | (k, v) :: e :: rest => "\x27" ++ k ++ "\x27: " ++ pyRepr v ++ ", " ++ pyReprFields (e :: rest)
end

/-- Python `str()` of a value, as interpolated by an f-string: a string renders
as itself, everything else as its `repr`-style rendering. -/
def pyStr : JValue → String
  | .str s => s
  | v => pyRepr v

/-- Python `x or y` where `x` is an optional value (`None` when absent). -/
def pyOr (x : Option JValue) (y : JValue) : JValue :=
  match x with
  | some v => if v.truthy then v else y
  | none => y

/-- Python `x or d` on the result of `os.environ.get`: the default is taken
when the variable is absent or the empty string. -/
def pyOrStr (x : Option String) (d : String) : String :=
  match x with
  | some s => if s = "" then d else s
  | none => d

/-- Python `os.environ.get` over an environment modelled as an association list. -/
def envLookup : List (String × String) → String → Option String
  | [], _ => none
  | (k, v) :: rest, key => if k = key then some v else envLookup rest key

/-- Source line `CLOUDINARY_CLOUD_NAME = os.environ.get("CLOUDINARY_CLOUD_NAME") or "ddeazpmcd"` -/
def CLOUDINARY_CLOUD_NAME (env : List (String × String)) : String :=
  pyOrStr (envLookup env "CLOUDINARY_CLOUD_NAME") "ddeazpmcd"

/-- Source line `CLOUDINARY_API_KEY = os.environ.get("CLOUDINARY_API_KEY") or "193187914314353"` -/
def CLOUDINARY_API_KEY (env : List (String × String)) : String :=
  pyOrStr (envLookup env "CLOUDINARY_API_KEY") "193187914314353"

/-- Source line `CLOUDINARY_API_SECRET = os.environ.get("CLOUDINARY_API_SECRET") or "g352-..."` -/
def CLOUDINARY_API_SECRET (env : List (String × String)) : String :=
  pyOrStr (envLookup env "CLOUDINARY_API_SECRET") "g352-BZO2OGstejYakcniC-fbeQ"

/-- Source check `all([CLOUDINARY_CLOUD_NAME, CLOUDINARY_API_KEY, CLOUDINARY_API_SECRET])`:
string truthiness of the three credentials. -/
def cloudinaryConfigured (env : List (String × String)) : Bool :=
  !(CLOUDINARY_CLOUD_NAME env == "") && !(CLOUDINARY_API_KEY env == "")
    && !(CLOUDINARY_API_SECRET env == "")

/-- The `for url_item in urls_from_payload` loop body of
`_extract_media_urls_from_yabes_response`: keep items that are strings
starting with `"http"`, in order. -/
def collectHttpUrls : List JValue → List String
  | [] => []
  | item :: rest =>
    match item with
    | .str s => if pyStartsWith s "http" then s :: collectHttpUrls rest else collectHttpUrls rest
    | _ => collectHttpUrls rest

/-- Source function `_extract_media_urls_from_yabes_response(yabes_api_response)` from
`src/main.py` lines 69-84: take `data` from the response; if it is falsy or
not a dict, return `[]`; otherwise read its `url` field, taking a list of
http-strings filtered in order, a single http-string as a one-element list,
and everything else as `[]`. -/
def extract_media_urls_from_yabes_response (yabes_api_response : JValue) : List String :=
  match yabes_api_response.getField "data" with
  | none => []
  | some media_data_payload =>
    if !(media_data_payload.truthy && media_data_payload.isDict) then []
    else
      match media_data_payload.getField "url" with
      | some (.arr urls_from_payload) => collectHttpUrls urls_from_payload
      | some (.str s) => if pyStartsWith s "http" then [s] else []
      | _ => []

/-- Outcome of the stage-1 `requests.get` / `raise_for_status` / `.json()`
block, as distinguished by the except clauses of the handler:
`timeout` is `requests.exceptions.Timeout`; `httpError status text` is
`requests.exceptions.HTTPError` raised by `raise_for_status` on a non-2xx
status, carrying the response status code and text; `requestError msg` is any
other `requests.exceptions.RequestException` with `str()` rendering `msg`;
`success text parsed` is a 2xx response with body `text`, `parsed = none`
when `.json()` raises `ValueError` (invalid JSON). -/
inductive FetchOutcome : Type where
  | timeout : FetchOutcome
  | httpError : Nat → String → FetchOutcome
  | requestError : String → FetchOutcome
  | success : String → Option JValue → FetchOutcome

/-- Outcome of one `cloudinary.uploader.upload` call: `ok d` is a normal
return with response dict `d`; `cloudinaryError e` is a raised
`cloudinary.exceptions.Error` with `str(e) = e`; `exn e` any other exception
with `str(e) = e`. -/
inductive UploadResult : Type where
  | ok : JValue → UploadResult
  | cloudinaryError : String → UploadResult
  | exn : String → UploadResult

/-- Python `d.get(k)` embedded into a response dict: Python `None` becomes JSON
`null`. -/
def dgetOrNull (v : JValue) (k : String) : JValue :=
  (v.getField k).getD .null

/-- The body of the per-item upload loop (`src/main.py` lines 178-194): a
successful upload contributes the populated result record; a
`cloudinary.exceptions.Error` or any other exception contributes the
source URL plus an error string. -/
def uploadEntry (media_url : String) (r : UploadResult) : JValue :=
  match r with
  | .ok upload_result => .obj [
      ("source_url", .str media_url),
      ("cloudinary_url", dgetOrNull upload_result "secure_url"),
      ("public_id", dgetOrNull upload_result "public_id"),
      ("resource_type", dgetOrNull upload_result "resource_type"),
      ("format", dgetOrNull upload_result "format"),
      ("width", dgetOrNull upload_result "width"),
      ("height", dgetOrNull upload_result "height")]
  | .cloudinaryError e =>
      .obj [("source_url", .str media_url), ("error", .str ("Cloudinary upload failed: " ++ e))]
  | .exn e =>
      .obj [("source_url", .str media_url),
        ("error", .str ("Unexpected error during Cloudinary upload: " ++ e))]

/-- Source line 144 of `src/main.py`: the message selection
`yabes_data.get("message") or yabes_data.get("error", default)` with the
default text `Unknown error, "success" was not true.` -/
def yabesErrorMessage (yabes_data : JValue) : JValue :=
  pyOr (yabes_data.getField "message")
    ((yabes_data.getField "error").getD (.str "Unknown error, \"success\" was not true."))

/-- Result of one request to the endpoint: an `HTTPException` with a status
code and detail string, or a returned JSON body. -/
inductive HandleResult : Type where
  | httpException : Nat → String → HandleResult
  | ok : JValue → HandleResult

/-- Status code of the result: `some` for an `HTTPException`, `none` for a
normal return (a FastAPI 200). -/
def HandleResult.statusOf : HandleResult → Option Nat
  | .httpException s _ => some s
  | .ok _ => none

/-- Source endpoint `process_instagram_and_upload_to_cloudinary` (`src/main.py` lines 87-206).
`env` is the process environment read at module load, `fetch` the outcome of
the stage-1 call to the yabes-desu API, `upload` the Cloudinary upload oracle
applied to each media URL in order. -/
def process_instagram_and_upload_to_cloudinary
    (env : List (String × String)) (instagram_url : String)
    (fetch : FetchOutcome) (upload : String → UploadResult) : HandleResult :=
  if !(cloudinaryConfigured env) then
    .httpException 503 "Cloudinary service is not configured on the server. Admin check required."
  else if instagram_url = "" then
    .httpException 400 "Instagram URL cannot be empty."
  else
    match fetch with
    | .timeout =>
        .httpException 504 "Request to external Instagram API (yabes-desu) timed out."
    | .httpError status body =>
        .httpException 502
          ("External API (yabes-desu) returned HTTP " ++ toString status ++ ": " ++ body.take 200)
    | .requestError msg =>
        .httpException 502 ("Error connecting to external Instagram API (yabes-desu): " ++ msg)
    | .success _ none =>
        .httpException 502 "External Instagram API (yabes-desu) returned invalid JSON."
    | .success _ (some yabes_data) =>
        if !(yabes_data.isDict && (yabes_data.getField "success").isSome) then
          .httpException 502 "Unexpected response structure from external Instagram API (yabes-desu)."
        else
          match yabes_data.getField "success" with
          | some (.bool true) =>
            match yabes_data.getField "data" with
            | some (.obj dataFields) =>
              match extract_media_urls_from_yabes_response yabes_data with
              | [] =>
                  .ok (.obj [
                    ("message", .str "No media items found or extractable for the given Instagram URL."),
                    ("instagram_url", .str instagram_url),
                    ("original_yabes_desu_data_summary", .obj [
                      ("caption", dgetOrNull (.obj dataFields) "caption"),
                      ("username", dgetOrNull (.obj dataFields) "username"),
                      ("is_video", dgetOrNull (.obj dataFields) "isVideo")]),
                    ("cloudinary_uploads", .arr [])])
              | u :: us =>
                  .ok (.obj [
                    ("message", .str "Processing complete."),
                    ("instagram_url", .str instagram_url),
                    ("original_yabes_desu_data_summary", .obj [
                      ("caption", dgetOrNull (.obj dataFields) "caption"),
                      ("username", dgetOrNull (.obj dataFields) "username"),
                      ("likes", dgetOrNull (.obj dataFields) "like"),
                      ("comments", dgetOrNull (.obj dataFields) "comment"),
                      ("is_video", dgetOrNull (.obj dataFields) "isVideo")]),
                    ("cloudinary_uploads",
                      .arr ((u :: us).map (fun media_url => uploadEntry media_url (upload media_url))))])
            | _ =>
              .httpException 502
                "External Instagram API (yabes-desu) reported success but provided no valid data."
          | _ =>
            .httpException 424
              ("Failed to fetch data via external API (yabes-desu): "
                ++ pyStr (yabesErrorMessage yabes_data))

/-! ## Helper lemmas -/

theorem pyOrStr_ne_empty (x : Option String) (d : String) (hd : ¬d = "") :
    ¬pyOrStr x d = "" := by
  cases x with
  | none => exact hd
  | some s =>
    by_cases h : s = ""
    · simp only [pyOrStr, h, if_true]
      exact hd
    · simp [pyOrStr, h]

theorem cloudinaryConfigured_true (env : List (String × String)) :
    cloudinaryConfigured env = true := by
  have h1 := pyOrStr_ne_empty (envLookup env "CLOUDINARY_CLOUD_NAME") "ddeazpmcd" (by decide)
  have h2 := pyOrStr_ne_empty (envLookup env "CLOUDINARY_API_KEY") "193187914314353" (by decide)
  have h3 := pyOrStr_ne_empty (envLookup env "CLOUDINARY_API_SECRET")
    "g352-BZO2OGstejYakcniC-fbeQ" (by decide)
  simp [cloudinaryConfigured, CLOUDINARY_CLOUD_NAME, CLOUDINARY_API_KEY, CLOUDINARY_API_SECRET,
    h1, h2, h3]

theorem collectHttpUrls_eq_filterMap (xs : List JValue) :
    collectHttpUrls xs = xs.filterMap (fun item =>
      match item with
      | .str s => if pyStartsWith s "http" then some s else none
      | _ => none) := by
  induction xs with
  | nil => rfl
  | cons x rest ih =>
    cases x with
    | str s =>
      by_cases h : pyStartsWith s "http" <;> simp [collectHttpUrls, List.filterMap_cons, h, ih]
    | null => simp [collectHttpUrls, List.filterMap_cons, ih]
    | bool b => simp [collectHttpUrls, List.filterMap_cons, ih]
    | num n => simp [collectHttpUrls, List.filterMap_cons, ih]
    | arr ys => simp [collectHttpUrls, List.filterMap_cons, ih]
    | obj fs => simp [collectHttpUrls, List.filterMap_cons, ih]

theorem lookupField_isSome_ne_nil {fs : List (String × JValue)} {k : String} {v : JValue}
    (h : lookupField fs k = some v) : fs.isEmpty = false := by
  cases fs with
  | nil => simp [lookupField] at h
  | cons a rest => rfl

/-! ## Claims -/

/-- C4 (amended): the asset-store credential variables fall back to hardcoded
non-empty defaults when unset in the environment, so the credential check
always passes and the handler never fails with HTTP status 503, for any
environment and input. -/
theorem c4_hardcoded_fallbacks_never_503 (env : List (String × String))
    (instagram_url : String) (fetch : FetchOutcome) (upload : String → UploadResult) :
    (process_instagram_and_upload_to_cloudinary env instagram_url fetch upload).statusOf ≠
      some 503 := by
  have key : ∀ detail, process_instagram_and_upload_to_cloudinary env instagram_url fetch upload ≠
      HandleResult.httpException 503 detail := by
    intro detail h
    unfold process_instagram_and_upload_to_cloudinary at h
    rw [cloudinaryConfigured_true] at h
    simp only [Bool.not_true] at h
    repeat' split at h
    all_goals first
      | exact HandleResult.noConfusion h
      | (injection h with h1 h2; exact absurd h1 (by decide))
      | simp_all
  intro hcontra
  cases hres : process_instagram_and_upload_to_cloudinary env instagram_url fetch upload with
  | ok body => rw [hres] at hcontra; simp [HandleResult.statusOf] at hcontra
  | httpException s d =>
    rw [hres] at hcontra
    simp [HandleResult.statusOf] at hcontra
    exact key d (by rw [hres, hcontra])

/-- C4 counterexample: with every Cloudinary variable absent from the
environment, a call does not return 503 (here the fetch times out and the
handler returns 504), refuting the claim that credentials unset forces 503 on
every call. -/
theorem c4_counterexample :
    (process_instagram_and_upload_to_cloudinary [] "https://instagram.com/p/ABC" .timeout
        (fun _ => .exn "e")).statusOf = some 504 ∧ (some 504 : Option Nat) ≠ some 503 :=
  ⟨rfl, by decide⟩

/-- C2: the pure media-URL extraction, applied to a response whose `data`
payload is a dict `fs`: a single http-string `url` yields `[s]`; a list `url`
yields exactly its http-string entries in original order (a `filterMap`, so no
deduplication); an absent `url`, or one that is neither a string nor a list
(including `null`), yields `[]`. -/
theorem c2_extract_media_urls_cases (resp : JValue) (fs : List (String × JValue))
    (hdata : resp.getField "data" = some (.obj fs)) :
    (∀ s : String, lookupField fs "url" = some (.str s) → pyStartsWith s "http" = true →
      extract_media_urls_from_yabes_response resp = [s]) ∧
    (∀ xs : List JValue, lookupField fs "url" = some (.arr xs) →
      extract_media_urls_from_yabes_response resp =
        xs.filterMap (fun item =>
          match item with
          | .str s => if pyStartsWith s "http" then some s else none
          | _ => none)) ∧
    (lookupField fs "url" = none → extract_media_urls_from_yabes_response resp = []) ∧
    (∀ v : JValue, lookupField fs "url" = some v →
      (∀ s, v ≠ .str s) → (∀ xs, v ≠ .arr xs) →
      extract_media_urls_from_yabes_response resp = []) := by
  refine ⟨?_, ?_, ?_, ?_⟩
  · intro s hs hhttp
    unfold extract_media_urls_from_yabes_response
    rw [hdata]
    simp [JValue.truthy, JValue.isDict, lookupField_isSome_ne_nil hs, JValue.getField, hs, hhttp]
  · intro xs hxs
    unfold extract_media_urls_from_yabes_response
    rw [hdata]
    simp [JValue.truthy, JValue.isDict, lookupField_isSome_ne_nil hxs, JValue.getField, hxs,
      collectHttpUrls_eq_filterMap]
  · intro hnone
    unfold extract_media_urls_from_yabes_response
    rw [hdata]
    cases fs with
    | nil => simp [JValue.truthy]
    | cons a rest => simp [JValue.truthy, JValue.isDict, JValue.getField, hnone]
  · intro v hv hstr harr
    unfold extract_media_urls_from_yabes_response
    rw [hdata]
    cases v with
    | str s => exact absurd rfl (hstr s)
    | arr xs => exact absurd rfl (harr xs)
    | null =>
      simp [JValue.truthy, JValue.isDict, lookupField_isSome_ne_nil hv, JValue.getField, hv]
    | bool b =>
      simp [JValue.truthy, JValue.isDict, lookupField_isSome_ne_nil hv, JValue.getField, hv]
    | num n =>
      simp [JValue.truthy, JValue.isDict, lookupField_isSome_ne_nil hv, JValue.getField, hv]
    | obj o =>
      simp [JValue.truthy, JValue.isDict, lookupField_isSome_ne_nil hv, JValue.getField, hv]

theorem c2_extract_media_urls_cases_witness :
    (JValue.obj [("data", .obj
        [("url", .arr [.str "http://a.jpg", .num 3, .str "nope", .str "https://b.mp4"])])]).getField
      "data" = some (.obj
        [("url", .arr [.str "http://a.jpg", .num 3, .str "nope", .str "https://b.mp4"])]) ∧
    extract_media_urls_from_yabes_response (JValue.obj [("data", .obj
        [("url", .arr [.str "http://a.jpg", .num 3, .str "nope", .str "https://b.mp4"])])]) =
      ["http://a.jpg", "https://b.mp4"] :=
  ⟨rfl, ((c2_extract_media_urls_cases
      (JValue.obj [("data", .obj
        [("url", .arr [.str "http://a.jpg", .num 3, .str "nope", .str "https://b.mp4"])])])
      [("url", .arr [.str "http://a.jpg", .num 3, .str "nope", .str "https://b.mp4"])] rfl).2.1
      [.str "http://a.jpg", .num 3, .str "nope", .str "https://b.mp4"] rfl).trans rfl⟩

theorem process_reported_failure (env : List (String × String)) (instagram_url : String)
    (hurl : instagram_url ≠ "") (body : String) (fs : List (String × JValue))
    (upload : String → UploadResult) (v : JValue)
    (hv : lookupField fs "success" = some v) (hne : v ≠ JValue.bool true) :
    process_instagram_and_upload_to_cloudinary env instagram_url
        (.success body (some (.obj fs))) upload =
      .httpException 424 ("Failed to fetch data via external API (yabes-desu): "
        ++ pyStr (yabesErrorMessage (.obj fs))) := by
  unfold process_instagram_and_upload_to_cloudinary
  rw [cloudinaryConfigured_true]
  simp only [Bool.not_true, JValue.isDict, JValue.getField]
  rw [hv]
  cases v with
  | bool b =>
    cases b with
    | false => simp [hurl]
    | true => exact absurd rfl hne
  | null => simp [hurl]
  | num n => simp [hurl]
  | str s => simp [hurl]
  | arr xs => simp [hurl]
  | obj o => simp [hurl]

theorem yabesErrorMessage_truthy_message (fs : List (String × JValue)) (m : JValue)
    (hm : lookupField fs "message" = some m) (ht : m.truthy = true) :
    yabesErrorMessage (.obj fs) = m := by
  simp [yabesErrorMessage, JValue.getField, hm, pyOr, ht]

/-- C3: for every parsed provider response carrying `success = false`, the
handler fails with status 424 and the detail is the fixed explanatory text
followed by the rendering of the selected provider message; in particular a
truthy `message` string is forwarded verbatim, and with no truthy message a
provider `error` string is forwarded verbatim. -/
theorem c3_reported_failure_forwards_message (env : List (String × String))
    (instagram_url : String) (hurl : instagram_url ≠ "") (body : String)
    (fs : List (String × JValue)) (upload : String → UploadResult)
    (hsucc : lookupField fs "success" = some (.bool false)) :
    process_instagram_and_upload_to_cloudinary env instagram_url
        (.success body (some (.obj fs))) upload =
      .httpException 424 ("Failed to fetch data via external API (yabes-desu): "
        ++ pyStr (yabesErrorMessage (.obj fs))) ∧
    (∀ s : String, lookupField fs "message" = some (.str s) → s ≠ "" →
      process_instagram_and_upload_to_cloudinary env instagram_url
          (.success body (some (.obj fs))) upload =
        .httpException 424 ("Failed to fetch data via external API (yabes-desu): " ++ s)) ∧
    (∀ e : String, (∀ m, lookupField fs "message" = some m → m.truthy = false) →
      lookupField fs "error" = some (.str e) →
      process_instagram_and_upload_to_cloudinary env instagram_url
          (.success body (some (.obj fs))) upload =
        .httpException 424 ("Failed to fetch data via external API (yabes-desu): " ++ e)) := by
  have base := process_reported_failure env instagram_url hurl body fs upload _ hsucc
    (fun h => absurd (JValue.bool.inj h) (by decide))
  refine ⟨base, ?_, ?_⟩
  · intro s hmsg hs
    rw [base, yabesErrorMessage_truthy_message fs _ hmsg (by simp [JValue.truthy, hs])]
    rfl
  · intro e hmf herr
    have hsel : yabesErrorMessage (.obj fs) = .str e := by
      unfold yabesErrorMessage pyOr
      simp only [JValue.getField]
      cases hm : lookupField fs "message" with
      | none => simp [herr]
      | some m => simp [hmf m hm, herr]
    rw [base, hsel]
    rfl

theorem c3_reported_failure_forwards_message_witness :
    ("u" : String) ≠ "" ∧
    lookupField [("success", JValue.bool false), ("error", JValue.str "Request failed")]
      "success" = some (.bool false) ∧
    process_instagram_and_upload_to_cloudinary [] "u"
        (.success "b" (some (.obj
          [("success", .bool false), ("error", .str "Request failed")])))
        (fun _ => .exn "e") =
      .httpException 424
        "Failed to fetch data via external API (yabes-desu): Request failed" :=
  ⟨by decide, rfl,
    ((c3_reported_failure_forwards_message [] "u" (by decide) "b"
      [("success", JValue.bool false), ("error", JValue.str "Request failed")]
      (fun _ => .exn "e") rfl).2.2 "Request failed"
      (fun m hm => Option.noConfusion hm) rfl).trans (by rfl)⟩

/-- C9: the success indicator is compared by identity to the boolean `True`:
any `success` value other than the JSON boolean `true` — including truthy
values such as the number 1 or the string `"true"` — makes the handler fail
with status 424. -/
theorem c9_success_identity_comparison (env : List (String × String))
    (instagram_url : String) (hurl : instagram_url ≠ "") (body : String)
    (fs : List (String × JValue)) (upload : String → UploadResult) (v : JValue)
    (hv : lookupField fs "success" = some v) (hne : v ≠ JValue.bool true) :
    (process_instagram_and_upload_to_cloudinary env instagram_url
        (.success body (some (.obj fs))) upload).statusOf = some 424 := by
  rw [process_reported_failure env instagram_url hurl body fs upload v hv hne]
  rfl

theorem c9_success_identity_comparison_witness :
    ("u" : String) ≠ "" ∧
    lookupField [("success", JValue.num 1)] "success" = some (.num 1) ∧
    JValue.num 1 ≠ JValue.bool true ∧
    (process_instagram_and_upload_to_cloudinary [] "u"
        (.success "b" (some (.obj [("success", .num 1)])))
        (fun _ => .exn "e")).statusOf = some 424 :=
  ⟨by decide, rfl, fun h => JValue.noConfusion h,
    c9_success_identity_comparison [] "u" (by decide) "b" [("success", JValue.num 1)]
      (fun _ => .exn "e") (JValue.num 1) rfl (fun h => JValue.noConfusion h)⟩

/-- C10: in the 424 detail, the provider `message` field is preferred over
its `error` field; a present-but-falsy message (such as the empty string)
falls through to `error`; with no truthy message and no `error` key the fixed
default text is used; and the handler detail renders exactly this selected
value. -/
theorem c10_error_message_precedence (env : List (String × String))
    (instagram_url : String) (hurl : instagram_url ≠ "") (body : String)
    (fs : List (String × JValue)) (upload : String → UploadResult) (v : JValue)
    (hv : lookupField fs "success" = some v) (hne : v ≠ JValue.bool true) :
    process_instagram_and_upload_to_cloudinary env instagram_url
        (.success body (some (.obj fs))) upload =
      .httpException 424 ("Failed to fetch data via external API (yabes-desu): "
        ++ pyStr (yabesErrorMessage (.obj fs))) ∧
    (∀ m, lookupField fs "message" = some m → m.truthy = true →
      yabesErrorMessage (.obj fs) = m) ∧
    (∀ m e, lookupField fs "message" = some m → m.truthy = false →
      lookupField fs "error" = some e → yabesErrorMessage (.obj fs) = e) ∧
    (∀ e, lookupField fs "message" = none → lookupField fs "error" = some e →
      yabesErrorMessage (.obj fs) = e) ∧
    (lookupField fs "message" = none → lookupField fs "error" = none →
      yabesErrorMessage (.obj fs) =
        .str "Unknown error, \"success\" was not true.") := by
  refine ⟨process_reported_failure env instagram_url hurl body fs upload v hv hne, ?_, ?_, ?_, ?_⟩
  · intro m hm ht
    simp [yabesErrorMessage, JValue.getField, hm, pyOr, ht]
  · intro m e hm ht he
    simp [yabesErrorMessage, JValue.getField, hm, pyOr, ht, he]
  · intro e hm he
    simp [yabesErrorMessage, JValue.getField, hm, pyOr, he]
  · intro hm he
    simp [yabesErrorMessage, JValue.getField, hm, pyOr, he]

theorem c10_error_message_precedence_witness :
    ("u" : String) ≠ "" ∧
    lookupField [("success", JValue.bool false), ("message", JValue.str ""),
      ("error", JValue.str "boom")] "success" = some (.bool false) ∧
    JValue.bool false ≠ JValue.bool true ∧
    process_instagram_and_upload_to_cloudinary [] "u"
        (.success "b" (some (.obj [("success", .bool false), ("message", .str ""),
          ("error", .str "boom")])))
        (fun _ => .exn "e") =
      .httpException 424 "Failed to fetch data via external API (yabes-desu): boom" :=
  ⟨by decide, rfl, fun h => absurd (JValue.bool.inj h) (by decide),
    ((c10_error_message_precedence [] "u" (by decide) "b"
      [("success", JValue.bool false), ("message", JValue.str ""), ("error", JValue.str "boom")]
      (fun _ => .exn "e") (JValue.bool false) rfl
      (fun h => absurd (JValue.bool.inj h) (by decide))).1).trans (by rfl)⟩

/-- C6: a parsed record lacking a `success` field fails with 502 and one
detail message; a record with `success = true` whose `data` is absent or not
a dict fails with 502 and a different detail message; the two conditions stay
distinct. -/
theorem c6_protocol_error_distinction (env : List (String × String)) (instagram_url : String)
    (hurl : instagram_url ≠ "") (body1 body2 : String) (y1 y2 : JValue)
    (upload1 upload2 : String → UploadResult)
    (h1 : y1.getField "success" = none)
    (h2 : y2.getField "success" = some (.bool true))
    (h3 : ∀ v, y2.getField "data" = some v → v.isDict = false) :
    process_instagram_and_upload_to_cloudinary env instagram_url
        (.success body1 (some y1)) upload1 =
      .httpException 502
        "Unexpected response structure from external Instagram API (yabes-desu)." ∧
    process_instagram_and_upload_to_cloudinary env instagram_url
        (.success body2 (some y2)) upload2 =
      .httpException 502
        "External Instagram API (yabes-desu) reported success but provided no valid data." ∧
    ("Unexpected response structure from external Instagram API (yabes-desu)." ≠
      "External Instagram API (yabes-desu) reported success but provided no valid data.") := by
  refine ⟨?_, ?_, by decide⟩
  · unfold process_instagram_and_upload_to_cloudinary
    rw [cloudinaryConfigured_true]
    cases y1 <;> simp_all [JValue.getField, JValue.isDict, hurl]
  · cases y2 with
    | obj fs =>
      simp only [JValue.getField] at h2 h3
      unfold process_instagram_and_upload_to_cloudinary
      rw [cloudinaryConfigured_true]
      simp only [Bool.not_true, JValue.isDict, JValue.getField]
      rw [h2]
      cases hd : lookupField fs "data" with
      | none => simp [hurl, hd]
      | some v =>
        have hv := h3 v hd
        cases v <;> simp_all [hurl, JValue.isDict]
    | null => simp [JValue.getField] at h2
    | bool b => simp [JValue.getField] at h2
    | num n => simp [JValue.getField] at h2
    | str s => simp [JValue.getField] at h2
    | arr xs => simp [JValue.getField] at h2

theorem c6_protocol_error_distinction_witness :
    ("u" : String) ≠ "" ∧
    (JValue.obj [("status", JValue.str "ok")]).getField "success" = none ∧
    (JValue.obj [("success", JValue.bool true), ("data", JValue.str "x")]).getField
      "success" = some (.bool true) ∧
    (∀ v, (JValue.obj [("success", JValue.bool true), ("data", JValue.str "x")]).getField
      "data" = some v → v.isDict = false) ∧
    process_instagram_and_upload_to_cloudinary [] "u"
        (.success "b1" (some (.obj [("status", .str "ok")]))) (fun _ => .exn "e") =
      .httpException 502
        "Unexpected response structure from external Instagram API (yabes-desu)." :=
  ⟨by decide, rfl, rfl, fun v hv => by cases Option.some.inj hv; rfl,
    (c6_protocol_error_distinction [] "u" (by decide) "b1" "b2"
      (.obj [("status", .str "ok")])
      (.obj [("success", .bool true), ("data", .str "x")])
      (fun _ => .exn "e") (fun _ => .exn "e") rfl rfl
      (fun v hv => by cases Option.some.inj hv; rfl)).1⟩

theorem process_media_found (env : List (String × String)) (instagram_url : String)
    (hurl : instagram_url ≠ "") (body : String)
    (fs dataFields : List (String × JValue)) (upload : String → UploadResult)
    (u0 : String) (us : List String)
    (hsucc : lookupField fs "success" = some (.bool true))
    (hdata : lookupField fs "data" = some (.obj dataFields))
    (hurls : extract_media_urls_from_yabes_response (.obj fs) = u0 :: us) :
    process_instagram_and_upload_to_cloudinary env instagram_url
        (.success body (some (.obj fs))) upload =
      .ok (.obj [
        ("message", .str "Processing complete."),
        ("instagram_url", .str instagram_url),
        ("original_yabes_desu_data_summary", .obj [
          ("caption", dgetOrNull (.obj dataFields) "caption"),
          ("username", dgetOrNull (.obj dataFields) "username"),
          ("likes", dgetOrNull (.obj dataFields) "like"),
          ("comments", dgetOrNull (.obj dataFields) "comment"),
          ("is_video", dgetOrNull (.obj dataFields) "isVideo")]),
        ("cloudinary_uploads",
          .arr ((u0 :: us).map (fun media_url => uploadEntry media_url (upload media_url))))]) := by
  unfold process_instagram_and_upload_to_cloudinary
  rw [cloudinaryConfigured_true]
  simp only [Bool.not_true, JValue.isDict, JValue.getField]
  rw [hsucc, hdata, hurls]
  simp [hurl]

/-- C7: with a successful extraction whose media-URL extraction is empty, the
handler short-circuits: the result does not depend on the upload oracle at
all (no upload is issued), the message says no media items were found, the
upload list is empty, and the summary carries the caption, author handle and
is-video flag from the data payload. -/
theorem c7_no_media_short_circuit (env : List (String × String)) (instagram_url : String)
    (hurl : instagram_url ≠ "") (body : String)
    (fs dataFields : List (String × JValue))
    (hsucc : lookupField fs "success" = some (.bool true))
    (hdata : lookupField fs "data" = some (.obj dataFields))
    (hempty : extract_media_urls_from_yabes_response (.obj fs) = []) :
    (∀ upload1 upload2 : String → UploadResult,
      process_instagram_and_upload_to_cloudinary env instagram_url
          (.success body (some (.obj fs))) upload1 =
        process_instagram_and_upload_to_cloudinary env instagram_url
          (.success body (some (.obj fs))) upload2) ∧
    (∀ upload : String → UploadResult,
      process_instagram_and_upload_to_cloudinary env instagram_url
          (.success body (some (.obj fs))) upload =
        .ok (.obj [
          ("message",
            .str "No media items found or extractable for the given Instagram URL."),
          ("instagram_url", .str instagram_url),
          ("original_yabes_desu_data_summary", .obj [
            ("caption", dgetOrNull (.obj dataFields) "caption"),
            ("username", dgetOrNull (.obj dataFields) "username"),
            ("is_video", dgetOrNull (.obj dataFields) "isVideo")]),
          ("cloudinary_uploads", .arr [])])) := by
  have main : ∀ upload : String → UploadResult,
      process_instagram_and_upload_to_cloudinary env instagram_url
          (.success body (some (.obj fs))) upload =
        .ok (.obj [
          ("message",
            .str "No media items found or extractable for the given Instagram URL."),
          ("instagram_url", .str instagram_url),
          ("original_yabes_desu_data_summary", .obj [
            ("caption", dgetOrNull (.obj dataFields) "caption"),
            ("username", dgetOrNull (.obj dataFields) "username"),
            ("is_video", dgetOrNull (.obj dataFields) "isVideo")]),
          ("cloudinary_uploads", .arr [])]) := by
    intro upload
    unfold process_instagram_and_upload_to_cloudinary
    rw [cloudinaryConfigured_true]
    simp only [Bool.not_true, JValue.isDict, JValue.getField]
    rw [hsucc, hdata, hempty]
    simp [hurl]
  exact ⟨fun u1 u2 => (main u1).trans (main u2).symm, main⟩

theorem c7_no_media_short_circuit_witness :
    ("u" : String) ≠ "" ∧
    lookupField [("success", JValue.bool true),
      ("data", JValue.obj [("caption", JValue.str "hi")])] "success" = some (.bool true) ∧
    lookupField [("success", JValue.bool true),
      ("data", JValue.obj [("caption", JValue.str "hi")])] "data" =
      some (.obj [("caption", JValue.str "hi")]) ∧
    extract_media_urls_from_yabes_response (.obj [("success", JValue.bool true),
      ("data", JValue.obj [("caption", JValue.str "hi")])]) = [] ∧
    process_instagram_and_upload_to_cloudinary [] "u"
        (.success "b" (some (.obj [("success", JValue.bool true),
          ("data", JValue.obj [("caption", JValue.str "hi")])])))
        (fun _ => .exn "e") =
      .ok (.obj [
        ("message",
          .str "No media items found or extractable for the given Instagram URL."),
        ("instagram_url", .str "u"),
        ("original_yabes_desu_data_summary", .obj [
          ("caption", .str "hi"), ("username", .null), ("is_video", .null)]),
        ("cloudinary_uploads", .arr [])]) :=
  ⟨by decide, rfl, rfl, rfl,
    (c7_no_media_short_circuit [] "u" (by decide) "b"
      [("success", JValue.bool true), ("data", JValue.obj [("caption", JValue.str "hi")])]
      [("caption", JValue.str "hi")] rfl rfl rfl).2 (fun _ => .exn "e")⟩

/-- C8: a request reaching stage 4 returns the message "Processing
complete.", the input URL echoed unchanged, a summary mapping the provider
`caption`, `username`, `like`, `comment` and `isVideo` fields to `caption`,
`username`, `likes`, `comments` and `is_video`, and the full ordered outcome
sequence as produced by the upload loop. -/
theorem c8_stage4_aggregation (env : List (String × String)) (instagram_url : String)
    (hurl : instagram_url ≠ "") (body : String)
    (fs dataFields : List (String × JValue)) (upload : String → UploadResult)
    (u0 : String) (us : List String)
    (hsucc : lookupField fs "success" = some (.bool true))
    (hdata : lookupField fs "data" = some (.obj dataFields))
    (hurls : extract_media_urls_from_yabes_response (.obj fs) = u0 :: us) :
    process_instagram_and_upload_to_cloudinary env instagram_url
        (.success body (some (.obj fs))) upload =
      .ok (.obj [
        ("message", .str "Processing complete."),
        ("instagram_url", .str instagram_url),
        ("original_yabes_desu_data_summary", .obj [
          ("caption", dgetOrNull (.obj dataFields) "caption"),
          ("username", dgetOrNull (.obj dataFields) "username"),
          ("likes", dgetOrNull (.obj dataFields) "like"),
          ("comments", dgetOrNull (.obj dataFields) "comment"),
          ("is_video", dgetOrNull (.obj dataFields) "isVideo")]),
        ("cloudinary_uploads",
          .arr ((u0 :: us).map (fun media_url => uploadEntry media_url (upload media_url))))]) :=
  process_media_found env instagram_url hurl body fs dataFields upload u0 us hsucc hdata hurls

theorem c8_stage4_aggregation_witness :
    ("https://instagram.com/p/ABC" : String) ≠ "" ∧
    lookupField [("success", JValue.bool true),
      ("data", JValue.obj [("url", JValue.arr [JValue.str "http://x/img.jpg"]),
        ("caption", JValue.str "hi"), ("username", JValue.str "bob"),
        ("like", JValue.num 5), ("comment", JValue.num 2),
        ("isVideo", JValue.bool false)])] "success" = some (.bool true) ∧
    lookupField [("success", JValue.bool true),
      ("data", JValue.obj [("url", JValue.arr [JValue.str "http://x/img.jpg"]),
        ("caption", JValue.str "hi"), ("username", JValue.str "bob"),
        ("like", JValue.num 5), ("comment", JValue.num 2),
        ("isVideo", JValue.bool false)])] "data" =
      some (.obj [("url", JValue.arr [JValue.str "http://x/img.jpg"]),
        ("caption", JValue.str "hi"), ("username", JValue.str "bob"),
        ("like", JValue.num 5), ("comment", JValue.num 2),
        ("isVideo", JValue.bool false)]) ∧
    extract_media_urls_from_yabes_response (.obj [("success", JValue.bool true),
      ("data", JValue.obj [("url", JValue.arr [JValue.str "http://x/img.jpg"]),
        ("caption", JValue.str "hi"), ("username", JValue.str "bob"),
        ("like", JValue.num 5), ("comment", JValue.num 2),
        ("isVideo", JValue.bool false)])]) = ["http://x/img.jpg"] ∧
    process_instagram_and_upload_to_cloudinary [] "https://instagram.com/p/ABC"
        (.success "b" (some (.obj [("success", JValue.bool true),
          ("data", JValue.obj [("url", JValue.arr [JValue.str "http://x/img.jpg"]),
            ("caption", JValue.str "hi"), ("username", JValue.str "bob"),
            ("like", JValue.num 5), ("comment", JValue.num 2),
            ("isVideo", JValue.bool false)])])))
        (fun _ => .ok (.obj [("secure_url", JValue.str "https://res.cloudinary.com/img.jpg"),
          ("public_id", JValue.str "instagram_imports/abc"),
          ("resource_type", JValue.str "image"), ("format", JValue.str "jpg"),
          ("width", JValue.num 320), ("height", JValue.num 240)])) =
      .ok (.obj [
        ("message", .str "Processing complete."),
        ("instagram_url", .str "https://instagram.com/p/ABC"),
        ("original_yabes_desu_data_summary", .obj [
          ("caption", .str "hi"), ("username", .str "bob"),
          ("likes", .num 5), ("comments", .num 2), ("is_video", .bool false)]),
        ("cloudinary_uploads", .arr [.obj [
          ("source_url", .str "http://x/img.jpg"),
          ("cloudinary_url", .str "https://res.cloudinary.com/img.jpg"),
          ("public_id", .str "instagram_imports/abc"),
          ("resource_type", .str "image"),
          ("format", .str "jpg"),
          ("width", .num 320),
          ("height", .num 240)]])]) :=
  ⟨by decide, rfl, rfl, rfl,
    c8_stage4_aggregation [] "https://instagram.com/p/ABC" (by decide) "b"
      [("success", JValue.bool true),
        ("data", JValue.obj [("url", JValue.arr [JValue.str "http://x/img.jpg"]),
          ("caption", JValue.str "hi"), ("username", JValue.str "bob"),
          ("like", JValue.num 5), ("comment", JValue.num 2),
          ("isVideo", JValue.bool false)])]
      [("url", JValue.arr [JValue.str "http://x/img.jpg"]),
        ("caption", JValue.str "hi"), ("username", JValue.str "bob"),
        ("like", JValue.num 5), ("comment", JValue.num 2),
        ("isVideo", JValue.bool false)]
      (fun _ => .ok (.obj [("secure_url", JValue.str "https://res.cloudinary.com/img.jpg"),
        ("public_id", JValue.str "instagram_imports/abc"),
        ("resource_type", JValue.str "image"), ("format", JValue.str "jpg"),
        ("width", JValue.num 320), ("height", JValue.num 240)]))
      "http://x/img.jpg" [] rfl rfl rfl⟩

/-- C1: with N extracted media URLs, the returned `cloudinary_uploads` is the
per-item map over exactly those URLs in order (so it has exactly N entries
and entry k depends only on the upload of item k, so no failure aborts the loop or
removes siblings); a provider-reported or unexpected upload failure yields an
entry with the source URL and an error string, and a success yields an entry
with the populated result fields. -/
theorem c1_upload_outcomes_per_item (env : List (String × String)) (instagram_url : String)
    (hurl : instagram_url ≠ "") (body : String)
    (fs dataFields : List (String × JValue)) (upload : String → UploadResult)
    (u0 : String) (us : List String)
    (hsucc : lookupField fs "success" = some (.bool true))
    (hdata : lookupField fs "data" = some (.obj dataFields))
    (hurls : extract_media_urls_from_yabes_response (.obj fs) = u0 :: us) :
    (∃ summary : JValue,
      process_instagram_and_upload_to_cloudinary env instagram_url
          (.success body (some (.obj fs))) upload =
        .ok (.obj [
          ("message", .str "Processing complete."),
          ("instagram_url", .str instagram_url),
          ("original_yabes_desu_data_summary", summary),
          ("cloudinary_uploads",
            .arr ((u0 :: us).map (fun media_url => uploadEntry media_url (upload media_url))))])) ∧
    ((u0 :: us).map (fun media_url => uploadEntry media_url (upload media_url))).length =
      (u0 :: us).length ∧
    (∀ u e, upload u = .cloudinaryError e → uploadEntry u (upload u) =
      .obj [("source_url", .str u), ("error", .str ("Cloudinary upload failed: " ++ e))]) ∧
    (∀ u e, upload u = .exn e → uploadEntry u (upload u) =
      .obj [("source_url", .str u),
        ("error", .str ("Unexpected error during Cloudinary upload: " ++ e))]) ∧
    (∀ u r, upload u = .ok r → uploadEntry u (upload u) =
      .obj [("source_url", .str u),
        ("cloudinary_url", dgetOrNull r "secure_url"),
        ("public_id", dgetOrNull r "public_id"),
        ("resource_type", dgetOrNull r "resource_type"),
        ("format", dgetOrNull r "format"),
        ("width", dgetOrNull r "width"),
        ("height", dgetOrNull r "height")]) := by
  refine ⟨⟨_, process_media_found env instagram_url hurl body fs dataFields upload u0 us
      hsucc hdata hurls⟩, by simp, ?_, ?_, ?_⟩
  · intro u e he
    rw [he]
    rfl
  · intro u e he
    rw [he]
    rfl
  · intro u r hr
    rw [hr]
    rfl

theorem c1_upload_outcomes_per_item_witness :
    ("u" : String) ≠ "" ∧
    lookupField [("success", JValue.bool true),
      ("data", JValue.obj [("url", JValue.arr
        [JValue.str "http://a.jpg", JValue.str "http://b.jpg", JValue.str "http://c.jpg"])])]
      "success" = some (.bool true) ∧
    lookupField [("success", JValue.bool true),
      ("data", JValue.obj [("url", JValue.arr
        [JValue.str "http://a.jpg", JValue.str "http://b.jpg", JValue.str "http://c.jpg"])])]
      "data" = some (.obj [("url", JValue.arr
        [JValue.str "http://a.jpg", JValue.str "http://b.jpg", JValue.str "http://c.jpg"])]) ∧
    extract_media_urls_from_yabes_response (.obj [("success", JValue.bool true),
      ("data", JValue.obj [("url", JValue.arr
        [JValue.str "http://a.jpg", JValue.str "http://b.jpg", JValue.str "http://c.jpg"])])]) =
      ["http://a.jpg", "http://b.jpg", "http://c.jpg"] ∧
    (∃ summary : JValue, process_instagram_and_upload_to_cloudinary [] "u"
        (.success "b" (some (.obj [("success", JValue.bool true),
          ("data", JValue.obj [("url", JValue.arr
            [JValue.str "http://a.jpg", JValue.str "http://b.jpg",
              JValue.str "http://c.jpg"])])])))
        (fun u => if u = "http://b.jpg" then .cloudinaryError "denied"
          else .ok (.obj [("secure_url", JValue.str "https://cdn/ok")])) =
      .ok (.obj [
        ("message", .str "Processing complete."),
        ("instagram_url", .str "u"),
        ("original_yabes_desu_data_summary", summary),
        ("cloudinary_uploads", .arr [
          .obj [("source_url", .str "http://a.jpg"),
            ("cloudinary_url", .str "https://cdn/ok"), ("public_id", .null),
            ("resource_type", .null), ("format", .null), ("width", .null),
            ("height", .null)],
          .obj [("source_url", .str "http://b.jpg"),
            ("error", .str "Cloudinary upload failed: denied")],
          .obj [("source_url", .str "http://c.jpg"),
            ("cloudinary_url", .str "https://cdn/ok"), ("public_id", .null),
            ("resource_type", .null), ("format", .null), ("width", .null),
            ("height", .null)]])])) :=
  ⟨by decide, rfl, rfl, rfl, by
    have h := (c1_upload_outcomes_per_item [] "u" (by decide) "b"
      [("success", JValue.bool true),
        ("data", JValue.obj [("url", JValue.arr
          [JValue.str "http://a.jpg", JValue.str "http://b.jpg", JValue.str "http://c.jpg"])])]
      [("url", JValue.arr
        [JValue.str "http://a.jpg", JValue.str "http://b.jpg", JValue.str "http://c.jpg"])]
      (fun u => if u = "http://b.jpg" then .cloudinaryError "denied"
        else .ok (.obj [("secure_url", JValue.str "https://cdn/ok")]))
      "http://a.jpg" ["http://b.jpg", "http://c.jpg"] rfl rfl rfl).1
    obtain ⟨summary, hs⟩ := h
    exact ⟨summary, hs.trans (by rfl)⟩⟩
